import Mathlib

/-!
# EVS volume v3 resource (opentelekomcloud/services/evs)

A shallow embedding of `resource_opentelekomcloud_evs_volume_v3.go`:
the lifecycle functions `resourceEvsVolumeV3Create`, `resourceEvsVolumeV3Read`,
`resourceEvsVolumeV3Update`, the set hash `resourceVolumeAttachmentHash` and the
poller `volumeV3StateRefreshFunc`.

The vendor SDK, the plugin host and the helpers of this provider that live in
other files are answers supplied by an environment `Env`; each lifecycle
function returns the error it hands to the host, the resource data it leaves
behind and the sequence of vendor calls and state writes it performed.
-/

set_option autoImplicit false

namespace Evs

/-! ## Errors -/

/-- A Go `error` value as produced by the SDK or by `fmt.Errorf`: either the
SDK's `golangsdk.ErrDefault404` or any other error; both carry their message. -/
inductive BaseErr where
  | default404 (msg : String)
  | other (msg : String)
  deriving DecidableEq, Repr

namespace BaseErr

/-- The `Error()` method. -/
def Error : BaseErr → String
  | default404 msg => msg
  | other msg => msg

/-- The type assertion `err.(golangsdk.ErrDefault404)`. -/
def is404 : BaseErr → Bool
  | default404 _ => true
  | other _ => false

end BaseErr

/-- The error a lifecycle function returns: a plain error, or the
`*multierror.Error` holding the list of collected errors. -/
inductive GoError where
  | base (e : BaseErr)
  | multi (errs : List BaseErr)
  deriving DecidableEq, Repr

/-- The call `fmt.Errorf(s)` with the format already applied. -/
def Errorf (s : String) : GoError := .base (.other s)

/-- The call `multierror.Append(err, errs...)` on plain errors: nil entries are
skipped, the others are collected in order. -/
def multierrorAppend (err : Option BaseErr) (errs : List (Option BaseErr)) : List BaseErr :=
  (err :: errs).filterMap id

/-- The method `(*multierror.Error).ErrorOrNil`. -/
def ErrorOrNil (errs : List BaseErr) : Option GoError :=
  if errs.length = 0 then none else some (.multi errs)

/-! ## Values, maps and the resource data -/

/-- A Go `map[string]string` (also used for the `map[string]interface{}` of an
attachment, whose values are strings): the sequence of its assignments; the
last assignment to a key is its value. -/
abbrev StrMap := List (String × String)

/-- The lookup `m[k]`; `none` is Go's nil / absent key. -/
def StrMap.get (m : StrMap) (k : String) : Option String :=
  m.foldl (fun r kv => if kv.1 = k then some kv.2 else r) none

/-- The assignment `m[k] = v`. -/
def StrMap.put (m : StrMap) (k v : String) : StrMap := m ++ [(k, v)]

/-- The builtin `len(m)`: the number of keys. -/
def StrMap.len (m : StrMap) : Nat := (m.map Prod.fst).dedup.length

/-- A `*schema.Set` of attachment maps: hash code and item, in insertion order. -/
abbrev SchemaSet := List (Int × StrMap)

/-- The method `(*schema.Set).Add`: an item is stored under its hash code unless
that code is already taken. -/
def SchemaSet.add (hash : StrMap → Int) (s : SchemaSet) (item : StrMap) : SchemaSet :=
  if s.any (fun e => e.1 == hash item) then s else s ++ [(hash item, item)]

/-- The set the host builds when a slice is written to a `TypeSet` attribute:
the items are added in order. -/
def SchemaSet.ofList (hash : StrMap → Int) (items : List StrMap) : SchemaSet :=
  items.foldl (SchemaSet.add hash) []

/-- A value held by a schema attribute. -/
inductive Value where
  | str (s : String)
  | int (n : Int)
  | bool (b : Bool)
  | strMap (m : StrMap)
  | mapList (l : List StrMap)
  | set (s : SchemaSet)
  deriving DecidableEq, Repr

/-- The host's `*schema.ResourceData`: the resource ID, the attribute values,
the answers of `HasChange` and of `Timeout` (in seconds). -/
structure ResourceData where
  id : String
  attrs : String → Option Value
  changed : String → Bool
  timeouts : String → Nat

namespace ResourceData

/-- The method `d.Id()`. -/
def Id (d : ResourceData) : String := d.id

/-- The method `d.SetId(v)`. -/
def SetId (d : ResourceData) (v : String) : ResourceData := { d with id := v }

/-- The expression `d.Get(k).(string)`; an unset attribute reads as the zero value. -/
def GetString (d : ResourceData) (k : String) : String :=
  match d.attrs k with
  | some (.str s) => s
  | _ => ""

/-- The expression `d.Get(k).(int)`. -/
def GetInt (d : ResourceData) (k : String) : Int :=
  match d.attrs k with
  | some (.int n) => n
  | _ => 0

/-- The expression `d.Get(k).(bool)`. -/
def GetBool (d : ResourceData) (k : String) : Bool :=
  match d.attrs k with
  | some (.bool b) => b
  | _ => false

/-- The method `d.GetOk(k)` on a string attribute: the value, and whether it is
set to a non-zero value. -/
def GetOkString (d : ResourceData) (k : String) : String × Bool :=
  (d.GetString k, d.GetString k != "")

/-- The method `d.HasChange(k)`. -/
def HasChange (d : ResourceData) (k : String) : Bool := d.changed k

/-- The method `d.Timeout(k)`, in seconds. -/
def Timeout (d : ResourceData) (k : String) : Nat := d.timeouts k

/-- The store of a value under an attribute. -/
def write (d : ResourceData) (k : String) (v : Value) : ResourceData :=
  { d with attrs := fun k1 => if k1 = k then some v else d.attrs k1 }

end ResourceData

/-! ## Vendor types -/

/-- An element of `Volume.Attachments`. -/
structure Attachment where
  ID : String
  ServerID : String
  Device : String
  deriving DecidableEq, Repr

/-- Modelled from the spec: the response type `volumes.Volume` of the EVS v3 SDK
package is declared outside the sources. `Size` to `Attachments` are the fields
the resource reads; `BackupID`, `ImageRef` and `Multiattach` stand for the
response fields that correspond to the attributes `backup_id`, `image_id` and
`multiattach`, which no function of the resource reads. -/
structure Volume where
  Size : Int
  Description : String
  AvailabilityZone : String
  Name : String
  SnapshotID : String
  VolumeType : String
  WWN : String
  Tags : StrMap
  Attachments : List Attachment
  BackupID : String
  ImageRef : String
  Multiattach : Bool
  deriving DecidableEq, Repr

/-- The result `(v, err)` of `volumes.Get(client, id).Extract()`. -/
inductive GetResult where
  | ok (v : Volume)
  | fail (err : BaseErr)
  deriving DecidableEq, Repr

/-- The response type `volumes.Volume` of the block storage v3 (cinder) SDK
package, of which the poller reads `Status`. -/
structure CinderVolume where
  ID : String
  Status : String
  deriving DecidableEq, Repr

/-- The result `(v, err)` of `cinderV3.Get(client, id).Extract()`; with an
error the pointer `v` is whatever the SDK returned, possibly nil. -/
inductive CinderGetResult where
  | ok (v : CinderVolume)
  | fail (v : Option CinderVolume) (err : BaseErr)
  deriving DecidableEq, Repr

/-- The request type `volumes.CreateOpts`; `Metadata` is `none` when left unset. -/
structure CreateOpts where
  BackupID : String
  AvailabilityZone : String
  Description : String
  Size : Int
  Name : String
  SnapshotID : String
  ImageRef : String
  VolumeType : String
  Multiattach : Bool
  Tags : StrMap
  Metadata : Option StrMap
  deriving DecidableEq, Repr

/-- The request type `cinderV3.UpdateOpts`. -/
structure UpdateOpts where
  Name : String
  Description : String
  deriving DecidableEq, Repr

/-- The `interface{}` returned by `volumes.GetJobEntity`: a string or anything else. -/
inductive Entity where
  | str (s : String)
  | other
  deriving DecidableEq, Repr

/-- What a `resource.StateRefreshFunc` returns: object, status, error. -/
abbrev RefreshResult := Option CinderVolume × String × Option GoError

/-- The host's `resource.StateChangeConf`; times in seconds. -/
structure StateChangeConf where
  Pending : List String
  Target : List String
  Refresh : Unit → RefreshResult
  Timeout : Nat
  Delay : Nat
  MinTimeout : Nat

/-! ## Observable steps -/

/-- A vendor call issued through the SDK client, or a write to the host state. -/
inductive Event where
  | create (opts : CreateOpts)
  | waitForJobSuccess (secs : Nat) (jobID : String)
  | getJobEntity (jobID : String) (label : String)
  | get (id : String)
  | update (id : String) (opts : UpdateOpts)
  | tagCreate (resourceType : String) (id : String) (tags : StrMap)
  | extendSize (id : String)
  | waitForState (id : String)
  | setAttr (key : String) (value : Value)
  | setId (id : String)
  deriving DecidableEq, Repr

namespace Event

/-- The step is the vendor create call `volumes.Create`. -/
def isCreate : Event → Bool
  | create _ => true
  | _ => false

/-- The step is the name/description update call `cinderV3.Update`. -/
def isUpdate : Event → Bool
  | update _ _ => true
  | _ => false

/-- The step is the tag API call `resourceEVSTagV2Create`. -/
def isTagCreate : Event → Bool
  | tagCreate _ _ _ => true
  | _ => false

/-- The step is the resize call `extendSize`. -/
def isExtendSize : Event → Bool
  | extendSize _ => true
  | _ => false

/-- The step is the poll-until-stable wait `stateConf.WaitForState`. -/
def isWaitForState : Event → Bool
  | waitForState _ => true
  | _ => false

/-- The step is a state write `d.Set`. -/
def isSetAttr : Event → Bool
  | setAttr _ _ => true
  | _ => false

/-- The attribute a state write addresses. -/
def setKey : Event → Option String
  | setAttr k _ => some k
  | _ => none

end Event

/-- The answers of everything the resource calls and does not define: the
provider configuration, the vendor SDK, the host and the provider helpers that
live in other files. -/
structure Env where
  /-- The error of `config.BlockStorageV3Client(region)`, if any. -/
  BlockStorageV3Client : Option BaseErr
  /-- The helper `common.HasFilledOpt(d, key)`. -/
  HasFilledOpt : ResourceData → String → Bool
  /-- The helper `resourceContainerTags(d)`. -/
  resourceContainerTags : ResourceData → StrMap
  /-- The call `volumes.Create(client, opts).ExtractJobResponse()`: the job ID or an error. -/
  Create : CreateOpts → Except BaseErr String
  /-- The call `volumes.WaitForJobSuccess(client, secs, jobID)`. -/
  WaitForJobSuccess : Nat → String → Option BaseErr
  /-- The call `volumes.GetJobEntity(client, jobID, label)`. -/
  GetJobEntity : String → String → Except BaseErr Entity
  /-- The call `volumes.Get(client, id).Extract()`. -/
  Get : String → GetResult
  /-- The error, if any, with which the host refuses a write `d.Set(key, _)`. -/
  SetErr : String → Option BaseErr
  /-- The call `cinderV3.Update(client, id, opts).Extract()`. -/
  Update : String → UpdateOpts → Option BaseErr
  /-- The helper `resourceEVSTagV2Create(d, meta, resourceType, id, tags)`: its error. -/
  resourceEVSTagV2Create : ResourceData → String → String → StrMap → Option BaseErr
  /-- The helper `extendSize(d, client)`. -/
  extendSize : ResourceData → Option BaseErr
  /-- The method `(*resource.StateChangeConf).WaitForState`: its error. -/
  WaitForState : StateChangeConf → Option BaseErr
  /-- The call `cinderV3.Get(client, id).Extract()`. -/
  cinderGet : String → CinderGetResult
  /-- The library function `hashcode.String`. -/
  hashcodeString : String → Int

/-- What a lifecycle function leaves behind: the error returned to the host,
the resource data, and the steps performed in order. -/
structure Outcome where
  err : Option GoError
  d : ResourceData
  trace : List Event

/-- The steps of a caller followed by those of the callee it returns. -/
def Outcome.after (o : Outcome) (steps : List Event) : Outcome :=
  { o with trace := steps ++ o.trace }

/-! ## The resource -/

/-- The library validator `validation.StringInSlice(valid, ignoreCase)`: whether
the value is accepted. Lower-casing is that of ASCII letters. -/
def StringInSlice (valid : List String) (ignoreCase : Bool) (v : String) : Bool :=
  valid.any (fun str => v == str ||
    (ignoreCase && String.mk (v.data.map Char.toLower) == String.mk (str.data.map Char.toLower)))

/-- The `ValidateFunc` of the schema attribute `device_type`. -/
def deviceTypeValidateFunc (v : String) : Bool :=
  StringInSlice ["VBD", "SCSI"] true v

/-- The set hash of the schema attribute `attachment`. -/
def resourceVolumeAttachmentHash (hashcodeString : String → Int) (m : StrMap) : Int :=
  let buf := ""
  let buf :=
    match m.get "instance_id" with
    | some s => buf ++ (s ++ "-")
    | none => buf
  hashcodeString buf

/-- The closure returned by `volumeV3StateRefreshFunc(client, id)`. -/
def volumeV3StateRefreshFunc (cinderGet : String → CinderGetResult) (id : String) :
    Unit → RefreshResult :=
  fun _ =>
    match cinderGet id with
    | .fail v err =>
      if err.is404 then (v, "deleted", none)
      else (none, "", some (.base err))
    | .ok v =>
      if v.Status = "error" then
        (some v, v.Status, some (Errorf "volume is in the error state"))
      else (some v, v.Status, none)

/-- Modelled from the spec: the helper `common.CheckDeleted(d, err, msg)` is not
among the sources. On a vendor "not found" error it "signals deletion to the
host (removes from state) rather than erroring", that is, it clears the ID and
returns nil; any other error is "wrapped with context and surfaced to the host
as a hard failure". -/
def CheckDeleted (d : ResourceData) (err : BaseErr) (msg : String) : Outcome :=
  if err.is404 then
    { err := none, d := d.SetId "", trace := [.setId ""] }
  else
    { err := some (Errorf (msg ++ ": " ++ err.Error)), d := d, trace := [] }

/-- The value the host stores for a write: a slice written to the `TypeSet`
attribute `attachment` becomes a set hashed by `resourceVolumeAttachmentHash`. -/
def stored (env : Env) : Value → Value
  | .mapList l => .set (SchemaSet.ofList (resourceVolumeAttachmentHash env.hashcodeString) l)
  | v => v

/-- The method `d.Set(key, value)`: the resource data afterwards and the error;
a refused write leaves the data as it was. -/
def dSet (env : Env) (d : ResourceData) (key : String) (value : Value) :
    ResourceData × Option BaseErr :=
  match env.SetErr key with
  | some e => (d, some e)
  | none => (d.write key (stored env value), none)

/-- The map built from one attachment in the loop of `resourceEvsVolumeV3Read`. -/
def attachmentMap (attachment : Attachment) : StrMap :=
  let m : StrMap := []
  let m := m.put "id" attachment.ID
  let m := m.put "instance_id" attachment.ServerID
  let m := m.put "device" attachment.Device
  m

/-- The function `resourceEvsVolumeV3Read`. -/
def resourceEvsVolumeV3Read (env : Env) (d : ResourceData) : Outcome :=
  match env.BlockStorageV3Client with
  | some err =>
    { err := some (Errorf ("error creating OpenTelekomCloud EVS storage client: " ++ err.Error)),
      d := d, trace := [] }
  | none =>
    match env.Get d.Id with
    | .fail err => (CheckDeleted d err "volume").after [.get d.Id]
    | .ok v =>
      let s1 := dSet env d "size" (.int v.Size)
      let s2 := dSet env s1.1 "description" (.str v.Description)
      let s3 := dSet env s2.1 "availability_zone" (.str v.AvailabilityZone)
      let s4 := dSet env s3.1 "name" (.str v.Name)
      let s5 := dSet env s4.1 "snapshot_id" (.str v.SnapshotID)
      let s6 := dSet env s5.1 "volume_type" (.str v.VolumeType)
      let s7 := dSet env s6.1 "wwn" (.str v.WWN)
      let mErr := multierrorAppend s1.2 [s2.2, s3.2, s4.2, s5.2, s6.2, s7.2]
      let t7 : List Event :=
        [.get d.Id, .setAttr "size" (.int v.Size), .setAttr "description" (.str v.Description),
         .setAttr "availability_zone" (.str v.AvailabilityZone), .setAttr "name" (.str v.Name),
         .setAttr "snapshot_id" (.str v.SnapshotID), .setAttr "volume_type" (.str v.VolumeType),
         .setAttr "wwn" (.str v.WWN)]
      match ErrorOrNil mErr with
      | some err => { err := some err, d := s7.1, trace := t7 }
      | none =>
        -- set tags
        let tags : StrMap := v.Tags.foldl (fun tags kv => tags.put kv.1 kv.2) []
        let s8 := dSet env s7.1 "tags" (.strMap tags)
        let t8 := t7 ++ [.setAttr "tags" (.strMap tags)]
        match s8.2 with
        | some err =>
          { err := some (Errorf ("[DEBUG] Error saving tags to state for OpenTelekomCloud evs storage ("
              ++ d.Id ++ "): " ++ err.Error)),
            d := s8.1, trace := t8 }
        | none =>
          -- set attachments
          let attachments : List StrMap := v.Attachments.map attachmentMap
          let s9 := dSet env s8.1 "attachment" (.mapList attachments)
          let t9 := t8 ++ [.setAttr "attachment" (.mapList attachments)]
          match s9.2 with
          | some err =>
            { err := some (Errorf ("[DEBUG] Error saving attachment to state for OpenTelekomCloud evs storage ("
                ++ d.Id ++ "): " ++ err.Error)),
              d := s9.1, trace := t9 }
          | none => { err := none, d := s9.1, trace := t9 }

/-- The metadata map `m` built by `resourceEvsVolumeV3Create`. -/
def createMetadata (d : ResourceData) : StrMap :=
  let m : StrMap := []
  let m :=
    match d.GetOkString "kms_id" with
    | (v, true) => (m.put "__system__cmkid" v).put "__system__encrypted" "1"
    | (_, false) => m
  let m := if d.GetString "device_type" = "SCSI" then m.put "hw:passthrough" "true" else m
  m

/-- The request `createOpts` built by `resourceEvsVolumeV3Create`. -/
def createOptsOf (env : Env) (d : ResourceData) : CreateOpts :=
  let tags := env.resourceContainerTags d
  let createOpts : CreateOpts :=
    { BackupID := d.GetString "backup_id"
      AvailabilityZone := d.GetString "availability_zone"
      Description := d.GetString "description"
      Size := d.GetInt "size"
      Name := d.GetString "name"
      SnapshotID := d.GetString "snapshot_id"
      ImageRef := d.GetString "image_id"
      VolumeType := d.GetString "volume_type"
      Multiattach := d.GetBool "multiattach"
      Tags := tags
      Metadata := none }
  let m := createMetadata d
  if m.len > 0 then { createOpts with Metadata := some m } else createOpts

/-- The function `resourceEvsVolumeV3Create`. -/
def resourceEvsVolumeV3Create (env : Env) (d : ResourceData) : Outcome :=
  match env.BlockStorageV3Client with
  | some err =>
    { err := some (Errorf ("error creating OpenTelekomCloud EVS storage client: " ++ err.Error)),
      d := d, trace := [] }
  | none =>
    if !env.HasFilledOpt d "backup_id" && !env.HasFilledOpt d "size" then
      { err := some (Errorf "missing required argument: 'size' is required, but no definition was found"),
        d := d, trace := [] }
    else
      let createOpts := createOptsOf env d
      match env.Create createOpts with
      | .error err =>
        { err := some (Errorf ("error creating OpenTelekomCloud EVS volume: " ++ err.Error)),
          d := d, trace := [.create createOpts] }
      | .ok jobID =>
        -- Wait for the volume to become available.
        let secs := d.Timeout "create"
        match env.WaitForJobSuccess secs jobID with
        | some err =>
          { err := some (.base err), d := d,
            trace := [.create createOpts, .waitForJobSuccess secs jobID] }
        | none =>
          match env.GetJobEntity jobID "volume_id" with
          | .error err =>
            { err := some (.base err), d := d,
              trace := [.create createOpts, .waitForJobSuccess secs jobID,
                        .getJobEntity jobID "volume_id"] }
          | .ok (.str id) =>
            -- Store the ID now
            (resourceEvsVolumeV3Read env (d.SetId id)).after
              [.create createOpts, .waitForJobSuccess secs jobID,
               .getJobEntity jobID "volume_id", .setId id]
          | .ok .other =>
            { err := some (Errorf "unexpected conversion error in resourceEvsVolumeV3Create"),
              d := d,
              trace := [.create createOpts, .waitForJobSuccess secs jobID,
                        .getJobEntity jobID "volume_id"] }

/-- The function `resourceEvsVolumeV3Update`. The variable `err` assigned by the
tag call is `tagErr`; nothing reads it afterwards. -/
def resourceEvsVolumeV3Update (env : Env) (d : ResourceData) : Outcome :=
  match env.BlockStorageV3Client with
  | some err =>
    { err := some (Errorf ("error creating OpenTelekomCloud block storage client: " ++ err.Error)),
      d := d, trace := [] }
  | none =>
    let updateOpts : UpdateOpts :=
      { Name := d.GetString "name", Description := d.GetString "description" }
    match env.Update d.Id updateOpts with
    | some err =>
      { err := some (Errorf ("error updating OpenTelekomCloud volume: " ++ err.Error)),
        d := d, trace := [.update d.Id updateOpts] }
    | none =>
      let tagStep : Option BaseErr × List Event :=
        if d.HasChange "tags" then
          (env.resourceEVSTagV2Create d "volumes" d.Id (env.resourceContainerTags d),
           [.tagCreate "volumes" d.Id (env.resourceContainerTags d)])
        else (none, [])
      let _tagErr := tagStep.1
      let t1 : List Event := [.update d.Id updateOpts] ++ tagStep.2
      if d.HasChange "size" then
        match env.extendSize d with
        | some err => { err := some (.base err), d := d, trace := t1 ++ [.extendSize d.Id] }
        | none =>
          let stateConf : StateChangeConf :=
            { Pending := ["extending"]
              Target := ["available", "in-use"]
              Refresh := volumeV3StateRefreshFunc env.cinderGet d.Id
              Timeout := d.Timeout "delete"
              Delay := 10
              MinTimeout := 3 }
          match env.WaitForState stateConf with
          | some err =>
            { err := some (Errorf ("error waiting for volume (" ++ d.Id
                ++ ") to become ready after resize: " ++ err.Error)),
              d := d, trace := t1 ++ [.extendSize d.Id, .waitForState d.Id] }
          | none =>
            (resourceEvsVolumeV3Read env d).after (t1 ++ [.extendSize d.Id, .waitForState d.Id])
      else
        (resourceEvsVolumeV3Read env d).after t1

/-! ## Vocabulary of the statements -/

/-- The configuration error of `resourceEvsVolumeV3Create`. -/
def missingSizeError : GoError :=
  Errorf "missing required argument: 'size' is required, but no definition was found"

/-- The attributes written together through `multierror.Append`, in order. -/
def scalarKeys : List String :=
  ["size", "description", "availability_zone", "name", "snapshot_id", "volume_type", "wwn"]

/-- All attributes `resourceEvsVolumeV3Read` writes, in order. -/
def readKeys : List String := scalarKeys ++ ["tags", "attachment"]

/-- The attributes addressed by the state writes of a trace, in order. -/
def writtenKeys (trace : List Event) : List String := trace.filterMap Event.setKey

/-- The error `resourceEvsVolumeV3Read` returns for a refused write of `tags`. -/
def tagsWriteError (id : String) (err : BaseErr) : GoError :=
  Errorf ("[DEBUG] Error saving tags to state for OpenTelekomCloud evs storage ("
    ++ id ++ "): " ++ err.Error)

/-- The error `resourceEvsVolumeV3Read` returns for a refused write of `attachment`. -/
def attachmentWriteError (id : String) (err : BaseErr) : GoError :=
  Errorf ("[DEBUG] Error saving attachment to state for OpenTelekomCloud evs storage ("
    ++ id ++ "): " ++ err.Error)

/-- The set stored under `attachment` for a fetched volume. -/
def attachmentSet (env : Env) (v : Volume) : SchemaSet :=
  SchemaSet.ofList (resourceVolumeAttachmentHash env.hashcodeString)
    (v.Attachments.map attachmentMap)

/-- The request `updateOpts` built by `resourceEvsVolumeV3Update`. -/
def updateOptsOf (d : ResourceData) : UpdateOpts :=
  { Name := d.GetString "name", Description := d.GetString "description" }

/-! ## Sample inputs -/

/-- A helper `HasFilledOpt` that answers whether the attribute holds a non-zero value. -/
def sampleHasFilledOpt (d : ResourceData) (k : String) : Bool :=
  match d.attrs k with
  | some (.str s) => s != ""
  | some (.int n) => n != 0
  | some (.bool b) => b
  | some _ => true
  | none => false

/-- A helper `resourceContainerTags` that reads the attribute `tags`. -/
def sampleContainerTags (d : ResourceData) : StrMap :=
  match d.attrs "tags" with
  | some (.strMap m) => m
  | _ => []

/-- A volume as a vendor may return it. -/
def sampleVolume : Volume :=
  { Size := 20, Description := "data disk", AvailabilityZone := "eu-de-01", Name := "vol-a",
    SnapshotID := "", VolumeType := "SSD", WWN := "688860300000d3b1",
    Tags := [("env", "prod")],
    Attachments := [⟨"att-1", "srv-1", "/dev/vdb"⟩, ⟨"att-2", "srv-1", "/dev/vdc"⟩],
    BackupID := "", ImageRef := "", Multiattach := false }

/-- An environment in which every call succeeds. -/
def sampleEnv : Env :=
  { BlockStorageV3Client := none
    HasFilledOpt := sampleHasFilledOpt
    resourceContainerTags := sampleContainerTags
    Create := fun _ => .ok "job-1"
    WaitForJobSuccess := fun _ _ => none
    GetJobEntity := fun _ _ => .ok (.str "vol-1")
    Get := fun _ => .ok sampleVolume
    SetErr := fun _ => none
    Update := fun _ _ => none
    resourceEVSTagV2Create := fun _ _ _ _ => none
    extendSize := fun _ => none
    WaitForState := fun _ => none
    cinderGet := fun id => .ok ⟨id, "available"⟩
    hashcodeString := fun s => s.length }

/-- A resource data with the given ID, attributes and changed keys. -/
def sampleData (id : String) (attrs : List (String × Value)) (changed : List String) :
    ResourceData :=
  { id := id
    attrs := fun k => (attrs.find? (fun kv => kv.1 == k)).map Prod.snd
    changed := fun k => changed.contains k
    timeouts := fun _ => 600 }

/-! ## Create: the field-combination check -/

/-- C1: when the storage client is constructed and neither `backup_id` nor
`size` is filled, Create returns the error "missing required argument: 'size' is
required, but no definition was found", performs no vendor call and no state
write at all (so no vendor create call), and leaves the resource data, the ID
included, as it was. -/
theorem create_neither_filled (env : Env) (d : ResourceData)
    (hc : env.BlockStorageV3Client = none)
    (hb : env.HasFilledOpt d "backup_id" = false)
    (hs : env.HasFilledOpt d "size" = false) :
    (resourceEvsVolumeV3Create env d).err = some missingSizeError ∧
    (resourceEvsVolumeV3Create env d).trace = [] ∧
    (∀ e ∈ (resourceEvsVolumeV3Create env d).trace, e.isCreate = false) ∧
    (resourceEvsVolumeV3Create env d).d = d ∧
    (resourceEvsVolumeV3Create env d).d.Id = d.Id := by
  simp [resourceEvsVolumeV3Create, hc, hb, hs, missingSizeError]

/-- C1 at a configuration with only an availability zone and a volume type. -/
theorem create_neither_filled_witness :
    (resourceEvsVolumeV3Create sampleEnv
      (sampleData "" [("availability_zone", .str "eu-de-01"), ("volume_type", .str "SSD")] [])).err
      = some missingSizeError ∧
    (resourceEvsVolumeV3Create sampleEnv
      (sampleData "" [("availability_zone", .str "eu-de-01"), ("volume_type", .str "SSD")] [])).d.Id
      = "" :=
  have h := create_neither_filled sampleEnv
    (sampleData "" [("availability_zone", .str "eu-de-01"), ("volume_type", .str "SSD")] [])
    rfl (by decide) (by decide)
  ⟨h.1, h.2.2.2.2⟩

/-- The trace of Create up to the vendor create call, once the check is passed. -/
theorem create_trace_of_filled (env : Env) (d : ResourceData)
    (hc : env.BlockStorageV3Client = none)
    (hf : (env.HasFilledOpt d "backup_id" || env.HasFilledOpt d "size") = true) :
    ∃ rest, (resourceEvsVolumeV3Create env d).trace = .create (createOptsOf env d) :: rest := by
  have hf2 : (!env.HasFilledOpt d "backup_id" && !env.HasFilledOpt d "size") = false := by
    cases hb : env.HasFilledOpt d "backup_id" <;> cases hs : env.HasFilledOpt d "size" <;>
      simp_all
  unfold resourceEvsVolumeV3Create
  simp only [hc, hf2]
  cases h1 : env.Create (createOptsOf env d) with
  | error err => simp
  | ok jobID =>
    cases h2 : env.WaitForJobSuccess (d.Timeout "create") jobID with
    | some err => simp [h2]
    | none =>
      cases h3 : env.GetJobEntity jobID "volume_id" with
      | error err => simp [h2, h3]
      | ok entity =>
        cases entity with
        | str id => simp [h2, h3, Outcome.after]
        | other => simp [h2, h3]

/-- C8, as stated, fails: with both `size` and `backup_id` filled the check is
passed and the vendor create call is issued; the configuration error is not
returned. -/
theorem create_both_filled_counterexample :
    sampleEnv.HasFilledOpt
      (sampleData "" [("size", .int 10), ("backup_id", .str "bk-1")] []) "size" = true ∧
    sampleEnv.HasFilledOpt
      (sampleData "" [("size", .int 10), ("backup_id", .str "bk-1")] []) "backup_id" = true ∧
    (resourceEvsVolumeV3Create sampleEnv
      (sampleData "" [("size", .int 10), ("backup_id", .str "bk-1")] [])).trace.any Event.isCreate
      = true ∧
    (resourceEvsVolumeV3Create sampleEnv
      (sampleData "" [("size", .int 10), ("backup_id", .str "bk-1")] [])).err
      ≠ some missingSizeError := by
  refine ⟨by decide, by decide, ?_, ?_⟩
  · simp [resourceEvsVolumeV3Create, sampleEnv, sampleHasFilledOpt, sampleData, Outcome.after,
      Event.isCreate]
  · simp [resourceEvsVolumeV3Create, sampleEnv, sampleHasFilledOpt, sampleData, Outcome.after,
      resourceEvsVolumeV3Read, ResourceData.SetId, ResourceData.Id, dSet, multierrorAppend,
      ErrorOrNil]

/-- C8, amended: when the storage client is constructed, the check of Create
accepts a configuration (the vendor create call is issued, with the request
built from the configuration, as the first step) if and only if at least one of
`size` and `backup_id` is filled; with neither filled the configuration error is
returned and nothing is issued; with both filled the configuration is accepted. -/
theorem create_accepts_iff_some_filled (env : Env) (d : ResourceData)
    (hc : env.BlockStorageV3Client = none) :
    ((resourceEvsVolumeV3Create env d).trace.any Event.isCreate = true ↔
      (env.HasFilledOpt d "backup_id" = true ∨ env.HasFilledOpt d "size" = true)) ∧
    ((env.HasFilledOpt d "backup_id" = true ∨ env.HasFilledOpt d "size" = true) →
      (resourceEvsVolumeV3Create env d).trace.head? = some (.create (createOptsOf env d))) ∧
    ((env.HasFilledOpt d "backup_id" = false ∧ env.HasFilledOpt d "size" = false) →
      (resourceEvsVolumeV3Create env d).err = some missingSizeError ∧
      (resourceEvsVolumeV3Create env d).trace = []) ∧
    ((env.HasFilledOpt d "backup_id" = true ∧ env.HasFilledOpt d "size" = true) →
      (resourceEvsVolumeV3Create env d).trace.any Event.isCreate = true) := by
  have key : (env.HasFilledOpt d "backup_id" = true ∨ env.HasFilledOpt d "size" = true) →
      ∃ rest, (resourceEvsVolumeV3Create env d).trace = .create (createOptsOf env d) :: rest := by
    intro h
    apply create_trace_of_filled env d hc
    rcases h with h | h <;> simp [h]
  have none_case : (env.HasFilledOpt d "backup_id" = false ∧ env.HasFilledOpt d "size" = false) →
      (resourceEvsVolumeV3Create env d).err = some missingSizeError ∧
      (resourceEvsVolumeV3Create env d).trace = [] := by
    rintro ⟨hb, hs⟩
    simp [resourceEvsVolumeV3Create, hc, hb, hs, missingSizeError]
  refine ⟨⟨?_, ?_⟩, ?_, none_case, ?_⟩
  · intro h
    by_contra hn
    have hb : env.HasFilledOpt d "backup_id" = false := by
      cases hb : env.HasFilledOpt d "backup_id" <;> simp_all
    have hs : env.HasFilledOpt d "size" = false := by
      cases hs : env.HasFilledOpt d "size" <;> simp_all
    rw [(none_case ⟨hb, hs⟩).2] at h
    simp at h
  · intro h
    obtain ⟨rest, hr⟩ := key h
    simp [hr, Event.isCreate]
  · intro h
    obtain ⟨rest, hr⟩ := key h
    simp [hr]
  · rintro ⟨hb, _⟩
    obtain ⟨rest, hr⟩ := key (Or.inl hb)
    simp [hr, Event.isCreate]

/-- C8 amended, at a configuration with both `size` and `backup_id` filled. -/
theorem create_accepts_iff_some_filled_witness :
    (resourceEvsVolumeV3Create sampleEnv
      (sampleData "" [("size", .int 10), ("backup_id", .str "bk-1")] [])).trace.head?
      = some (.create (createOptsOf sampleEnv
          (sampleData "" [("size", .int 10), ("backup_id", .str "bk-1")] []))) :=
  (create_accepts_iff_some_filled sampleEnv
    (sampleData "" [("size", .int 10), ("backup_id", .str "bk-1")] []) rfl).2.1
    (Or.inl (by decide))

/-! ## The state refresh closure -/

/-- C2: the closure returned by `volumeV3StateRefreshFunc`, by outcome of the
vendor Get: a 404 error gives status "deleted" and a nil error; any other Get
error gives (nil, "", that error); a volume whose status is "error" gives that
volume, status "error" and a non-nil error; any other volume gives (the volume,
its status, nil). So the error is non-nil exactly when Get failed with a
non-404 error or the status is "error". -/
theorem refresh_by_get_outcome (cinderGet : String → CinderGetResult) (id : String) :
    (∀ v err, cinderGet id = .fail v err → err.is404 = true →
      volumeV3StateRefreshFunc cinderGet id () = (v, "deleted", none)) ∧
    (∀ v err, cinderGet id = .fail v err → err.is404 = false →
      volumeV3StateRefreshFunc cinderGet id () = (none, "", some (.base err))) ∧
    (∀ v, cinderGet id = .ok v → v.Status = "error" →
      volumeV3StateRefreshFunc cinderGet id ()
        = (some v, "error", some (Errorf "volume is in the error state"))) ∧
    (∀ v, cinderGet id = .ok v → v.Status ≠ "error" →
      volumeV3StateRefreshFunc cinderGet id () = (some v, v.Status, none)) ∧
    ((volumeV3StateRefreshFunc cinderGet id ()).2.2 ≠ none ↔
      ((∃ v err, cinderGet id = .fail v err ∧ err.is404 = false) ∨
       (∃ v, cinderGet id = .ok v ∧ v.Status = "error"))) := by
  refine ⟨?_, ?_, ?_, ?_, ?_⟩
  · intro v err h h404
    simp [volumeV3StateRefreshFunc, h, h404]
  · intro v err h h404
    simp [volumeV3StateRefreshFunc, h, h404]
  · intro v h hs
    simp [volumeV3StateRefreshFunc, h, hs]
  · intro v h hs
    simp [volumeV3StateRefreshFunc, h, hs]
  · cases h : cinderGet id with
    | ok v =>
      by_cases hs : v.Status = "error" <;> simp [volumeV3StateRefreshFunc, h, hs]
    | fail v err =>
      cases h404 : err.is404
      · simp only [volumeV3StateRefreshFunc, h, h404]
        simp
        exact ⟨v, err, ⟨rfl, rfl⟩, h404⟩
      · simp [volumeV3StateRefreshFunc, h, h404]

/-- C2 at a vendor Get that reports a volume in status "error". -/
theorem refresh_by_get_outcome_witness :
    volumeV3StateRefreshFunc (fun id => .ok ⟨id, "error"⟩) "vol-1" ()
      = (some ⟨"vol-1", "error"⟩, "error", some (Errorf "volume is in the error state")) :=
  (refresh_by_get_outcome (fun id => .ok ⟨id, "error"⟩) "vol-1").2.2.1 ⟨"vol-1", "error"⟩ rfl rfl

/-! ## Read -/

theorem dSet_snd (env : Env) (d : ResourceData) (k : String) (v : Value) :
    (dSet env d k v).2 = env.SetErr k := by
  unfold dSet
  cases env.SetErr k <;> rfl

theorem tags_copy (l acc : StrMap) :
    l.foldl (fun tags kv => StrMap.put tags kv.1 kv.2) acc = acc ++ l := by
  induction l generalizing acc with
  | nil => simp
  | cons kv l ih =>
    rw [List.foldl_cons, ih]
    simp [StrMap.put]

theorem errorOrNil_eq_none (errs : List BaseErr) : ErrorOrNil errs = none ↔ errs = [] := by
  unfold ErrorOrNil
  cases errs <;> simp

theorem errorOrNil_of_ne (errs : List BaseErr) (h : errs ≠ []) :
    ErrorOrNil errs = some (.multi errs) := by
  unfold ErrorOrNil
  cases errs <;> simp at h ⊢

theorem scalar_errs_eq (env : Env) :
    multierrorAppend (env.SetErr "size")
      [env.SetErr "description", env.SetErr "availability_zone", env.SetErr "name",
       env.SetErr "snapshot_id", env.SetErr "volume_type", env.SetErr "wwn"]
      = scalarKeys.filterMap env.SetErr := rfl

/-- The error of Read after a successful Get, by refused writes. -/
theorem read_err_of_get_ok (env : Env) (d : ResourceData) (v : Volume)
    (hc : env.BlockStorageV3Client = none) (hg : env.Get d.Id = .ok v) :
    (resourceEvsVolumeV3Read env d).err =
      if scalarKeys.filterMap env.SetErr ≠ [] then
        some (.multi (scalarKeys.filterMap env.SetErr))
      else
        match env.SetErr "tags" with
        | some e => some (tagsWriteError d.Id e)
        | none =>
          match env.SetErr "attachment" with
          | some e => some (attachmentWriteError d.Id e)
          | none => none := by
  unfold resourceEvsVolumeV3Read
  simp only [hc, hg, dSet_snd, scalar_errs_eq]
  by_cases h7 : scalarKeys.filterMap env.SetErr = []
  · rw [(errorOrNil_eq_none _).2 h7]
    simp only [h7, ne_eq, not_true_eq_false, if_false]
    cases h8 : env.SetErr "tags" with
    | some e => rfl
    | none =>
      cases h9 : env.SetErr "attachment" with
      | some e => rfl
      | none => rfl
  · rw [errorOrNil_of_ne _ h7]
    simp [h7]

/-- The writes Read attempts after a successful Get, by refused writes. -/
theorem read_keys_of_get_ok (env : Env) (d : ResourceData) (v : Volume)
    (hc : env.BlockStorageV3Client = none) (hg : env.Get d.Id = .ok v) :
    writtenKeys (resourceEvsVolumeV3Read env d).trace =
      if scalarKeys.filterMap env.SetErr ≠ [] then scalarKeys
      else
        match env.SetErr "tags" with
        | some _ => scalarKeys ++ ["tags"]
        | none => readKeys := by
  unfold resourceEvsVolumeV3Read
  simp only [hc, hg, dSet_snd, scalar_errs_eq]
  by_cases h7 : scalarKeys.filterMap env.SetErr = []
  · rw [(errorOrNil_eq_none _).2 h7]
    simp only [h7, ne_eq, not_true_eq_false, if_false]
    cases h8 : env.SetErr "tags" with
    | some e => rfl
    | none =>
      cases h9 : env.SetErr "attachment" with
      | some e => rfl
      | none => rfl
  · rw [errorOrNil_of_ne _ h7]
    simp only [h7, ne_eq, not_false_eq_true, if_true]
    rfl

/-- Read returns nil after a successful Get exactly when no write is refused. -/
theorem read_err_none_iff (env : Env) (d : ResourceData) (v : Volume)
    (hc : env.BlockStorageV3Client = none) (hg : env.Get d.Id = .ok v) :
    (resourceEvsVolumeV3Read env d).err = none ↔ ∀ k ∈ readKeys, env.SetErr k = none := by
  rw [read_err_of_get_ok env d v hc hg]
  by_cases h7 : scalarKeys.filterMap env.SetErr = []
  · have h7a := List.filterMap_eq_nil_iff.1 h7
    cases h8 : env.SetErr "tags" with
    | some e =>
      simp only [h7, ne_eq, not_true_eq_false, if_false]
      constructor
      · intro h; cases h
      · intro h
        have := h "tags" (by simp [readKeys])
        rw [h8] at this; cases this
    | none =>
      cases h9 : env.SetErr "attachment" with
      | some e =>
        simp only [h7, ne_eq, not_true_eq_false, if_false]
        constructor
        · intro h; cases h
        · intro h
          have := h "attachment" (by simp [readKeys])
          rw [h9] at this; cases this
      | none =>
        simp only [h7, ne_eq, not_true_eq_false, if_false, true_iff]
        intro k hk
        simp only [readKeys, List.mem_append, List.mem_cons, List.mem_singleton,
          List.not_mem_nil, or_false] at hk
        rcases hk with hk | hk | hk
        · exact h7a k hk
        · rw [hk]; exact h8
        · rw [hk]; exact h9
  · simp only [h7, ne_eq, not_false_eq_true, if_true]
    constructor
    · intro h; cases h
    · intro h
      exact absurd (List.filterMap_eq_nil_iff.2 (fun k hk => h k (by simp [readKeys, hk]))) h7

/-- C7: when the vendor Get of Read fails with a not-found error, Read clears
the resource ID, returns no error and writes no attribute (its only steps are
the Get and the clearing of the ID); when Get fails with any other error, Read
returns a non-nil error and leaves the resource data, the ID included, as it
was. -/
theorem read_get_failed (env : Env) (d : ResourceData) (err : BaseErr)
    (hc : env.BlockStorageV3Client = none) (hg : env.Get d.Id = .fail err) :
    (err.is404 = true →
      (resourceEvsVolumeV3Read env d).d.Id = "" ∧
      (resourceEvsVolumeV3Read env d).err = none ∧
      writtenKeys (resourceEvsVolumeV3Read env d).trace = [] ∧
      (resourceEvsVolumeV3Read env d).d.attrs = d.attrs ∧
      (resourceEvsVolumeV3Read env d).trace = [.get d.Id, .setId ""]) ∧
    (err.is404 = false →
      (resourceEvsVolumeV3Read env d).err ≠ none ∧
      (resourceEvsVolumeV3Read env d).d.Id = d.Id ∧
      (resourceEvsVolumeV3Read env d).d = d ∧
      (resourceEvsVolumeV3Read env d).trace = [.get d.Id]) := by
  unfold resourceEvsVolumeV3Read
  simp only [hc, hg]
  constructor
  · intro h404
    simp [CheckDeleted, h404, Outcome.after, writtenKeys, Event.setKey, ResourceData.SetId,
      ResourceData.Id]
  · intro h404
    simp [CheckDeleted, h404, Outcome.after]

/-- C7 at a volume "vol-9" that the vendor no longer knows. -/
theorem read_get_failed_witness :
    (resourceEvsVolumeV3Read
      { sampleEnv with Get := fun _ => .fail (.default404 "Resource not found") }
      (sampleData "vol-9" [("size", .int 10)] [])).d.Id = "" ∧
    (resourceEvsVolumeV3Read
      { sampleEnv with Get := fun _ => .fail (.default404 "Resource not found") }
      (sampleData "vol-9" [("size", .int 10)] [])).err = none :=
  have h := (read_get_failed
    { sampleEnv with Get := fun _ => .fail (.default404 "Resource not found") }
    (sampleData "vol-9" [("size", .int 10)] []) (.default404 "Resource not found") rfl rfl).1 rfl
  ⟨h.1, h.2.1⟩

/-- C6, as stated, fails: when the writes of `size` and of `tags` are both
refused, Read returns a combined error holding the failure of `size` only, and
it attempts neither the write of `tags` nor that of `attachment`. -/
theorem read_stops_after_scalar_failures_counterexample :
    (resourceEvsVolumeV3Read
      { sampleEnv with SetErr := fun k =>
          if k = "size" then some (.other "size: bad type")
          else if k = "tags" then some (.other "tags: bad type") else none }
      (sampleData "vol-1" [] [])).err = some (.multi [.other "size: bad type"]) ∧
    writtenKeys (resourceEvsVolumeV3Read
      { sampleEnv with SetErr := fun k =>
          if k = "size" then some (.other "size: bad type")
          else if k = "tags" then some (.other "tags: bad type") else none }
      (sampleData "vol-1" [] [])).trace = scalarKeys ∧
    "tags" ∉ writtenKeys (resourceEvsVolumeV3Read
      { sampleEnv with SetErr := fun k =>
          if k = "size" then some (.other "size: bad type")
          else if k = "tags" then some (.other "tags: bad type") else none }
      (sampleData "vol-1" [] [])).trace ∧
    "attachment" ∉ writtenKeys (resourceEvsVolumeV3Read
      { sampleEnv with SetErr := fun k =>
          if k = "size" then some (.other "size: bad type")
          else if k = "tags" then some (.other "tags: bad type") else none }
      (sampleData "vol-1" [] [])).trace := by
  refine ⟨by decide, by decide, by decide, by decide⟩

/-- C6, amended: after a successful Get, Read always attempts the seven writes
size, description, availability_zone, name, snapshot_id, volume_type and wwn.
If any of them is refused it returns one combined error holding exactly the
failures of those seven, in order, and attempts no further write. Otherwise it
attempts `tags` and, if that is refused, returns that failure (wrapped) without
attempting `attachment`; otherwise it attempts `attachment` and returns its
failure (wrapped), if any. Read returns nil exactly when none of the nine
writes is refused. -/
theorem read_write_failures (env : Env) (d : ResourceData) (v : Volume)
    (hc : env.BlockStorageV3Client = none) (hg : env.Get d.Id = .ok v) :
    (scalarKeys <+: writtenKeys (resourceEvsVolumeV3Read env d).trace) ∧
    (scalarKeys.filterMap env.SetErr ≠ [] →
      (resourceEvsVolumeV3Read env d).err = some (.multi (scalarKeys.filterMap env.SetErr)) ∧
      (∀ e, e ∈ scalarKeys.filterMap env.SetErr ↔ ∃ k ∈ scalarKeys, env.SetErr k = some e) ∧
      writtenKeys (resourceEvsVolumeV3Read env d).trace = scalarKeys) ∧
    (scalarKeys.filterMap env.SetErr = [] → ∀ e, env.SetErr "tags" = some e →
      (resourceEvsVolumeV3Read env d).err = some (tagsWriteError d.Id e) ∧
      writtenKeys (resourceEvsVolumeV3Read env d).trace = scalarKeys ++ ["tags"]) ∧
    (scalarKeys.filterMap env.SetErr = [] → env.SetErr "tags" = none →
      writtenKeys (resourceEvsVolumeV3Read env d).trace = readKeys ∧
      ∀ e, env.SetErr "attachment" = some e →
        (resourceEvsVolumeV3Read env d).err = some (attachmentWriteError d.Id e)) ∧
    ((resourceEvsVolumeV3Read env d).err = none ↔ ∀ k ∈ readKeys, env.SetErr k = none) := by
  have herr := read_err_of_get_ok env d v hc hg
  have hkeys := read_keys_of_get_ok env d v hc hg
  refine ⟨?_, ?_, ?_, ?_, ?_⟩
  · rw [hkeys]
    by_cases h7 : scalarKeys.filterMap env.SetErr = []
    · cases h8 : env.SetErr "tags" <;> simp [h7, readKeys]
    · simp [h7]
  · intro h7
    refine ⟨?_, ?_, ?_⟩
    · rw [herr]; simp [h7]
    · intro e; exact List.mem_filterMap
    · rw [hkeys]; simp [h7]
  · intro h7 e h8
    constructor
    · rw [herr]; simp [h7, h8]
    · rw [hkeys]; simp [h7, h8]
  · intro h7 h8
    constructor
    · rw [hkeys]; simp [h7, h8]
    · intro e h9
      rw [herr]; simp [h7, h8, h9]
  · exact read_err_none_iff env d v hc hg

/-- C6 amended, at a host that refuses the writes of `description` and `wwn`. -/
theorem read_write_failures_witness :
    (resourceEvsVolumeV3Read
      { sampleEnv with SetErr := fun k =>
          if k = "description" then some (.other "description: bad type")
          else if k = "wwn" then some (.other "wwn: bad type") else none }
      (sampleData "vol-1" [] [])).err
      = some (.multi [.other "description: bad type", .other "wwn: bad type"]) :=
  ((read_write_failures
    { sampleEnv with SetErr := fun k =>
        if k = "description" then some (.other "description: bad type")
        else if k = "wwn" then some (.other "wwn: bad type") else none }
    (sampleData "vol-1" [] []) sampleVolume rfl rfl).2.1 (by decide)).1

/-- The resource data Read leaves behind when Get succeeds and no write is refused. -/
theorem read_data_of_all_written (env : Env) (d : ResourceData) (v : Volume)
    (hc : env.BlockStorageV3Client = none) (hg : env.Get d.Id = .ok v)
    (hw : ∀ k ∈ readKeys, env.SetErr k = none) :
    (resourceEvsVolumeV3Read env d).d =
      ((((((((d.write "size" (.int v.Size)).write "description" (.str v.Description)).write
        "availability_zone" (.str v.AvailabilityZone)).write "name" (.str v.Name)).write
        "snapshot_id" (.str v.SnapshotID)).write "volume_type" (.str v.VolumeType)).write
        "wwn" (.str v.WWN)).write "tags" (.strMap v.Tags)).write
        "attachment" (.set (attachmentSet env v)) := by
  have h1 := hw "size" (by decide)
  have h2 := hw "description" (by decide)
  have h3 := hw "availability_zone" (by decide)
  have h4 := hw "name" (by decide)
  have h5 := hw "snapshot_id" (by decide)
  have h6 := hw "volume_type" (by decide)
  have h7 := hw "wwn" (by decide)
  have h8 := hw "tags" (by decide)
  have h9 := hw "attachment" (by decide)
  unfold resourceEvsVolumeV3Read
  simp only [hc, hg]
  simp [dSet, h1, h2, h3, h4, h5, h6, h7, h8, h9, multierrorAppend, ErrorOrNil, tags_copy,
    stored, attachmentSet]

/-- C5, as stated, fails: after a successful Read in which every write
succeeds, `backup_id`, `image_id` and `multiattach` are not written: they keep
the values they had, which differ from the fetched volume. -/
theorem read_leaves_create_only_attributes_counterexample :
    (resourceEvsVolumeV3Read sampleEnv
      (sampleData "vol-1"
        [("backup_id", .str "bk-1"), ("image_id", .str "img-1"), ("multiattach", .bool true)]
        [])).err = none ∧
    (resourceEvsVolumeV3Read sampleEnv
      (sampleData "vol-1"
        [("backup_id", .str "bk-1"), ("image_id", .str "img-1"), ("multiattach", .bool true)]
        [])).d.attrs "backup_id" = some (.str "bk-1") ∧
    (resourceEvsVolumeV3Read sampleEnv
      (sampleData "vol-1"
        [("backup_id", .str "bk-1"), ("image_id", .str "img-1"), ("multiattach", .bool true)]
        [])).d.attrs "image_id" = some (.str "img-1") ∧
    (resourceEvsVolumeV3Read sampleEnv
      (sampleData "vol-1"
        [("backup_id", .str "bk-1"), ("image_id", .str "img-1"), ("multiattach", .bool true)]
        [])).d.attrs "multiattach" = some (.bool true) ∧
    writtenKeys (resourceEvsVolumeV3Read sampleEnv
      (sampleData "vol-1"
        [("backup_id", .str "bk-1"), ("image_id", .str "img-1"), ("multiattach", .bool true)]
        [])).trace = readKeys ∧
    "backup_id" ∉ readKeys ∧ "image_id" ∉ readKeys ∧ "multiattach" ∉ readKeys ∧
    sampleEnv.Get "vol-1" = .ok sampleVolume ∧
    sampleVolume.BackupID ≠ "bk-1" ∧ sampleVolume.ImageRef ≠ "img-1" ∧
    sampleVolume.Multiattach ≠ true := by
  refine ⟨by decide, by decide, by decide, by decide, by decide, by decide, by decide,
    by decide, rfl, by decide, by decide, by decide⟩

/-- C5, amended: after a successful Get in which no write is refused, Read
returns nil and the attributes size, description, availability_zone, name,
snapshot_id, volume_type, wwn and tags each equal the corresponding field of the
fetched volume, and attachment is the set built from the fetched attachments;
every other attribute (backup_id, image_id and multiattach among them) and the
ID are left as they were. -/
theorem read_writes_fetched_fields (env : Env) (d : ResourceData) (v : Volume)
    (hc : env.BlockStorageV3Client = none) (hg : env.Get d.Id = .ok v)
    (hw : ∀ k ∈ readKeys, env.SetErr k = none) :
    (resourceEvsVolumeV3Read env d).err = none ∧
    (resourceEvsVolumeV3Read env d).d.attrs "size" = some (.int v.Size) ∧
    (resourceEvsVolumeV3Read env d).d.attrs "description" = some (.str v.Description) ∧
    (resourceEvsVolumeV3Read env d).d.attrs "availability_zone"
      = some (.str v.AvailabilityZone) ∧
    (resourceEvsVolumeV3Read env d).d.attrs "name" = some (.str v.Name) ∧
    (resourceEvsVolumeV3Read env d).d.attrs "snapshot_id" = some (.str v.SnapshotID) ∧
    (resourceEvsVolumeV3Read env d).d.attrs "volume_type" = some (.str v.VolumeType) ∧
    (resourceEvsVolumeV3Read env d).d.attrs "wwn" = some (.str v.WWN) ∧
    (resourceEvsVolumeV3Read env d).d.attrs "tags" = some (.strMap v.Tags) ∧
    (resourceEvsVolumeV3Read env d).d.attrs "attachment" = some (.set (attachmentSet env v)) ∧
    (∀ k, k ∉ readKeys → (resourceEvsVolumeV3Read env d).d.attrs k = d.attrs k) ∧
    (resourceEvsVolumeV3Read env d).d.attrs "backup_id" = d.attrs "backup_id" ∧
    (resourceEvsVolumeV3Read env d).d.attrs "image_id" = d.attrs "image_id" ∧
    (resourceEvsVolumeV3Read env d).d.attrs "multiattach" = d.attrs "multiattach" ∧
    (resourceEvsVolumeV3Read env d).d.Id = d.Id := by
  have hd := read_data_of_all_written env d v hc hg hw
  have hfr : ∀ k, k ∉ readKeys → (resourceEvsVolumeV3Read env d).d.attrs k = d.attrs k := by
    intro k hk
    rw [hd]
    simp only [readKeys, scalarKeys, List.cons_append, List.nil_append, List.mem_cons,
      List.mem_singleton, List.not_mem_nil, or_false, not_or] at hk
    obtain ⟨k1, k2, k3, k4, k5, k6, k7, k8, k9⟩ := hk
    simp [ResourceData.write, k1, k2, k3, k4, k5, k6, k7, k8, k9]
  refine ⟨?_, ?_, ?_, ?_, ?_, ?_, ?_, ?_, ?_, ?_, hfr, hfr _ (by decide), hfr _ (by decide),
    hfr _ (by decide), ?_⟩
  · exact (read_err_none_iff env d v hc hg).2 hw
  all_goals (rw [hd]; simp [ResourceData.write, ResourceData.Id])

/-- C5 amended, at the sample volume. -/
theorem read_writes_fetched_fields_witness :
    (resourceEvsVolumeV3Read sampleEnv (sampleData "vol-1" [("size", .int 10)] [])).d.attrs "size"
      = some (.int 20) :=
  (read_writes_fetched_fields sampleEnv (sampleData "vol-1" [("size", .int 10)] []) sampleVolume
    rfl rfl (fun _ _ => rfl)).2.1

/-! ## The attachment set -/

theorem schemaSet_add_codes (hash : StrMap → Int) (s : SchemaSet) (item : StrMap) :
    (SchemaSet.add hash s item).map Prod.fst =
      if hash item ∈ s.map Prod.fst then s.map Prod.fst else s.map Prod.fst ++ [hash item] := by
  unfold SchemaSet.add
  by_cases h : hash item ∈ s.map Prod.fst
  · have h2 : s.any (fun e => e.1 == hash item) = true := by
      simp only [List.mem_map] at h
      obtain ⟨e, he, hc⟩ := h
      simp only [List.any_eq_true]
      exact ⟨e, he, by simp [hc]⟩
    simp [h, h2]
  · have h2 : s.any (fun e => e.1 == hash item) = false := by
      cases hb : s.any (fun e => e.1 == hash item) with
      | false => rfl
      | true =>
        exfalso
        apply h
        simp only [List.any_eq_true] at hb
        obtain ⟨e, he, hc⟩ := hb
        simp only [beq_iff_eq] at hc
        exact List.mem_map.2 ⟨e, he, hc⟩
    simp [h, h2]

theorem schemaSet_fold_nodup (hash : StrMap → Int) (items : List StrMap) (s : SchemaSet)
    (h : (s.map Prod.fst).Nodup) :
    ((items.foldl (SchemaSet.add hash) s).map Prod.fst).Nodup := by
  induction items generalizing s with
  | nil => simpa using h
  | cons item items ih =>
    rw [List.foldl_cons]
    apply ih
    rw [schemaSet_add_codes]
    by_cases hm : hash item ∈ s.map Prod.fst
    · simpa [hm] using h
    · simp only [hm, if_false]
      rw [List.nodup_append]
      refine ⟨h, List.nodup_singleton _, ?_⟩
      intro a ha hb
      rw [List.mem_singleton] at hb
      exact hm (hb ▸ ha)

theorem schemaSet_fold_mem (hash : StrMap → Int) (items : List StrMap) (s : SchemaSet) (c : Int)
    (h : c ∈ s.map Prod.fst ∨ ∃ item ∈ items, hash item = c) :
    c ∈ (items.foldl (SchemaSet.add hash) s).map Prod.fst := by
  induction items generalizing s with
  | nil =>
    rcases h with h | ⟨item, hi, _⟩
    · simpa using h
    · cases hi
  | cons item items ih =>
    rw [List.foldl_cons]
    apply ih
    rcases h with h | ⟨it, hi, hc⟩
    · left
      rw [schemaSet_add_codes]
      by_cases hm : hash item ∈ s.map Prod.fst
      · simpa [hm] using h
      · simp only [hm, if_false, List.mem_append]
        exact Or.inl h
    · rcases List.mem_cons.1 hi with rfl | hi2
      · left
        rw [schemaSet_add_codes]
        subst hc
        by_cases hm : hash it ∈ s.map Prod.fst
        · rw [if_pos hm]; exact hm
        · rw [if_neg hm]; exact List.mem_append.2 (Or.inr (List.mem_singleton.2 rfl))
      · right
        exact ⟨it, hi2, hc⟩

theorem attachmentMap_instance_id (a : Attachment) :
    (attachmentMap a).get "instance_id" = some a.ServerID := by
  simp [attachmentMap, StrMap.put, StrMap.get]

theorem attachmentHash_of_some (h : String → Int) (m : StrMap) (s : String)
    (hm : m.get "instance_id" = some s) :
    resourceVolumeAttachmentHash h m = h (s ++ "-") := by
  simp [resourceVolumeAttachmentHash, hm]

/-- C10: the set hash depends on `instance_id` alone: two attachment maps with
the same `instance_id` get the same hash whatever their `id` and `device`; the
hash is `hashcode.String(instance_id + "-")` when `instance_id` is present and
`hashcode.String("")` when it is nil. Hence, in the `attachment` set Read
writes, two attachments of the fetched volume with the same server ID have the
same code, and exactly one element of the set carries that code. -/
theorem attachment_hash_by_instance_id (env : Env) :
    (∀ m1 m2 : StrMap, m1.get "instance_id" = m2.get "instance_id" →
      resourceVolumeAttachmentHash env.hashcodeString m1
        = resourceVolumeAttachmentHash env.hashcodeString m2) ∧
    (∀ (m : StrMap) (s : String), m.get "instance_id" = some s →
      resourceVolumeAttachmentHash env.hashcodeString m = env.hashcodeString (s ++ "-")) ∧
    (∀ m : StrMap, m.get "instance_id" = none →
      resourceVolumeAttachmentHash env.hashcodeString m = env.hashcodeString "") ∧
    (∀ a b : Attachment, a.ServerID = b.ServerID →
      resourceVolumeAttachmentHash env.hashcodeString (attachmentMap a)
        = resourceVolumeAttachmentHash env.hashcodeString (attachmentMap b)) ∧
    (∀ (d : ResourceData) (v : Volume), env.BlockStorageV3Client = none →
      env.Get d.Id = .ok v → (∀ k ∈ readKeys, env.SetErr k = none) →
      (resourceEvsVolumeV3Read env d).d.attrs "attachment" = some (.set (attachmentSet env v)) ∧
      ∀ a ∈ v.Attachments, ∀ b ∈ v.Attachments, a.ServerID = b.ServerID →
        resourceVolumeAttachmentHash env.hashcodeString (attachmentMap a)
          = resourceVolumeAttachmentHash env.hashcodeString (attachmentMap b) ∧
        ((attachmentSet env v).map Prod.fst).count
          (resourceVolumeAttachmentHash env.hashcodeString (attachmentMap a)) = 1) := by
  have hpair : ∀ a b : Attachment, a.ServerID = b.ServerID →
      resourceVolumeAttachmentHash env.hashcodeString (attachmentMap a)
        = resourceVolumeAttachmentHash env.hashcodeString (attachmentMap b) := by
    intro a b hab
    rw [attachmentHash_of_some _ _ _ (attachmentMap_instance_id a),
      attachmentHash_of_some _ _ _ (attachmentMap_instance_id b), hab]
  refine ⟨?_, ?_, ?_, hpair, ?_⟩
  · intro m1 m2 h
    simp [resourceVolumeAttachmentHash, h]
  · intro m s hm
    exact attachmentHash_of_some _ m s hm
  · intro m hm
    simp [resourceVolumeAttachmentHash, hm]
  · intro d v hc hg hw
    constructor
    · rw [read_data_of_all_written env d v hc hg hw]
      simp [ResourceData.write]
    · intro a ha b _ hab
      refine ⟨hpair a b hab, ?_⟩
      apply List.count_eq_one_of_mem
      · exact schemaSet_fold_nodup _ _ [] (by simp)
      · apply schemaSet_fold_mem
        right
        exact ⟨attachmentMap a, List.mem_map.2 ⟨a, ha, rfl⟩, rfl⟩

/-- C10 at the sample volume, whose two attachments share the server "srv-1". -/
theorem attachment_hash_by_instance_id_witness :
    ((attachmentSet sampleEnv sampleVolume).map Prod.fst).count
      (resourceVolumeAttachmentHash sampleEnv.hashcodeString
        (attachmentMap ⟨"att-1", "srv-1", "/dev/vdb"⟩)) = 1 ∧
    (attachmentSet sampleEnv sampleVolume).length = 1 :=
  ⟨(((attachment_hash_by_instance_id sampleEnv).2.2.2.2 (sampleData "vol-1" [] []) sampleVolume
      rfl rfl (fun _ _ => rfl)).2
      ⟨"att-1", "srv-1", "/dev/vdb"⟩ (by decide) ⟨"att-2", "srv-1", "/dev/vdc"⟩ (by decide) rfl).2,
    by decide⟩

/-! ## Update -/

/-- Read issues the vendor Get and state writes only. -/
theorem read_trace_kinds (env : Env) (d : ResourceData) :
    ∀ e ∈ (resourceEvsVolumeV3Read env d).trace,
      e.isUpdate = false ∧ e.isTagCreate = false ∧ e.isExtendSize = false ∧
      e.isWaitForState = false ∧ e.isCreate = false := by
  unfold resourceEvsVolumeV3Read
  cases env.BlockStorageV3Client with
  | some err => simp
  | none =>
    cases env.Get d.Id with
    | fail err =>
      cases h404 : err.is404 <;>
        simp [CheckDeleted, h404, Outcome.after, Event.isUpdate, Event.isTagCreate,
          Event.isExtendSize, Event.isWaitForState, Event.isCreate]
    | ok v =>
      simp only [dSet_snd]
      cases ErrorOrNil _ with
      | some err =>
        simp [Event.isUpdate, Event.isTagCreate, Event.isExtendSize, Event.isWaitForState,
          Event.isCreate]
      | none =>
        cases env.SetErr "tags" with
        | some err =>
          simp [Event.isUpdate, Event.isTagCreate, Event.isExtendSize, Event.isWaitForState,
            Event.isCreate]
        | none =>
          cases env.SetErr "attachment" <;>
            simp [Event.isUpdate, Event.isTagCreate, Event.isExtendSize, Event.isWaitForState,
              Event.isCreate]

theorem read_trace_any_tag (env : Env) (d : ResourceData) :
    (resourceEvsVolumeV3Read env d).trace.any Event.isTagCreate = false := by
  rw [List.any_eq_false]
  intro e he
  simp [(read_trace_kinds env d e he).2.1]

theorem read_trace_any_extend (env : Env) (d : ResourceData) :
    (resourceEvsVolumeV3Read env d).trace.any Event.isExtendSize = false := by
  rw [List.any_eq_false]
  intro e he
  simp [(read_trace_kinds env d e he).2.2.1]

theorem read_trace_any_wait (env : Env) (d : ResourceData) :
    (resourceEvsVolumeV3Read env d).trace.any Event.isWaitForState = false := by
  rw [List.any_eq_false]
  intro e he
  simp [(read_trace_kinds env d e he).2.2.2.1]

/-- The steps of Update once the storage client is constructed: the
name/description update first; then, if it succeeded, the tag call when `tags`
changed, the resize when `size` changed, the wait when the resize succeeded,
and Read when nothing before it made Update return. -/
theorem update_trace (env : Env) (d : ResourceData) (hc : env.BlockStorageV3Client = none) :
    (resourceEvsVolumeV3Update env d).trace =
      [.update d.Id (updateOptsOf d)] ++
      (if env.Update d.Id (updateOptsOf d) = none then
        (if d.HasChange "tags" = true
          then [.tagCreate "volumes" d.Id (env.resourceContainerTags d)] else []) ++
        (if d.HasChange "size" = true then
          [.extendSize d.Id] ++
          (if env.extendSize d = none then
            [.waitForState d.Id] ++
            (if env.WaitForState
                { Pending := ["extending"], Target := ["available", "in-use"],
                  Refresh := volumeV3StateRefreshFunc env.cinderGet d.Id,
                  Timeout := d.Timeout "delete", Delay := 10, MinTimeout := 3 } = none
              then (resourceEvsVolumeV3Read env d).trace else [])
          else [])
        else (resourceEvsVolumeV3Read env d).trace)
      else []) := by
  unfold resourceEvsVolumeV3Update
  simp only [hc]
  rcases Option.eq_none_or_eq_some (env.Update d.Id (updateOptsOf d)) with hu | ⟨err, hu⟩
  · have hu2 := hu
    simp only [updateOptsOf] at hu2
    simp only [hu, hu2, if_true]
    by_cases hs : d.HasChange "size" = true
    · simp only [hs, if_true]
      rcases Option.eq_none_or_eq_some (env.extendSize d) with he | ⟨err, he⟩
      · simp only [he, if_true]
        rcases Option.eq_none_or_eq_some (env.WaitForState
            { Pending := ["extending"], Target := ["available", "in-use"],
              Refresh := volumeV3StateRefreshFunc env.cinderGet d.Id,
              Timeout := d.Timeout "delete", Delay := 10, MinTimeout := 3 }) with hw | ⟨err, hw⟩
        · by_cases ht : d.HasChange "tags" = true <;> simp [hw, ht, Outcome.after, updateOptsOf]
        · by_cases ht : d.HasChange "tags" = true <;> simp [hw, ht, updateOptsOf]
      · by_cases ht : d.HasChange "tags" = true <;> simp [he, ht, updateOptsOf]
    · by_cases ht : d.HasChange "tags" = true <;> simp [hs, ht, Outcome.after, updateOptsOf]
  · have hu2 := hu
    simp only [updateOptsOf] at hu2
    simp [hu, hu2, updateOptsOf]

/-- C4, as stated, fails: in an Update where only `tags` changed (neither `name`
nor `description` did) the name/description update call is issued all the same;
and when that call fails, no tag call is issued although `tags` changed. -/
theorem update_always_sends_name_counterexample :
    (sampleData "vol-1" [("name", .str "vol-a")] ["tags"]).HasChange "name" = false ∧
    (sampleData "vol-1" [("name", .str "vol-a")] ["tags"]).HasChange "description" = false ∧
    (sampleData "vol-1" [("name", .str "vol-a")] ["tags"]).HasChange "tags" = true ∧
    (resourceEvsVolumeV3Update sampleEnv
      (sampleData "vol-1" [("name", .str "vol-a")] ["tags"])).trace.any Event.isUpdate = true ∧
    (resourceEvsVolumeV3Update sampleEnv
      (sampleData "vol-1" [("name", .str "vol-a")] ["tags"])).trace.head?
      = some (.update "vol-1" ⟨"vol-a", ""⟩) ∧
    (resourceEvsVolumeV3Update { sampleEnv with Update := fun _ _ => some (.other "HTTP 500") }
      (sampleData "vol-1" [("name", .str "vol-a")] ["tags"])).trace.any Event.isTagCreate
      = false := by
  refine ⟨by decide, by decide, by decide, by decide, by decide, by decide⟩

/-- C4, amended: in every Update whose storage client is constructed, the
name/description update call is issued first, whether or not `name` or
`description` changed. The tag API call is issued if and only if `tags` changed
and the name/description update succeeded; the resize call is issued if and
only if `size` changed and the name/description update succeeded; the
poll-until-stable wait is issued if and only if moreover the resize succeeded,
and then it directly follows the resize call. -/
theorem update_calls_by_change (env : Env) (d : ResourceData)
    (hc : env.BlockStorageV3Client = none) :
    (resourceEvsVolumeV3Update env d).trace.head? = some (.update d.Id (updateOptsOf d)) ∧
    ((resourceEvsVolumeV3Update env d).trace.any Event.isTagCreate = true ↔
      d.HasChange "tags" = true ∧ env.Update d.Id (updateOptsOf d) = none) ∧
    ((resourceEvsVolumeV3Update env d).trace.any Event.isExtendSize = true ↔
      d.HasChange "size" = true ∧ env.Update d.Id (updateOptsOf d) = none) ∧
    ((resourceEvsVolumeV3Update env d).trace.any Event.isWaitForState = true ↔
      d.HasChange "size" = true ∧ env.Update d.Id (updateOptsOf d) = none ∧
        env.extendSize d = none) ∧
    ((resourceEvsVolumeV3Update env d).trace.any Event.isWaitForState = true →
      ∃ pre post, (resourceEvsVolumeV3Update env d).trace
        = pre ++ [.extendSize d.Id, .waitForState d.Id] ++ post) := by
  rw [update_trace env d hc]
  have rt := read_trace_any_tag env d
  have re := read_trace_any_extend env d
  have rw_ := read_trace_any_wait env d
  have tailT : ∀ (c : Prop) [Decidable c],
      (if c then (resourceEvsVolumeV3Read env d).trace else []).any Event.isTagCreate = false := by
    intro c _; split <;> simp [rt]
  have tailE : ∀ (c : Prop) [Decidable c],
      (if c then (resourceEvsVolumeV3Read env d).trace else []).any Event.isExtendSize = false := by
    intro c _; split <;> simp [re]
  have tailW : ∀ (c : Prop) [Decidable c],
      (if c then (resourceEvsVolumeV3Read env d).trace else []).any Event.isWaitForState
        = false := by
    intro c _; split <;> simp [rw_]
  have ex : ∀ pre tail : List Event, ∃ p q,
      pre ++ ([.extendSize d.Id] ++ ([.waitForState d.Id] ++ tail))
        = p ++ [.extendSize d.Id, .waitForState d.Id] ++ q :=
    fun pre tail => ⟨pre, tail, by simp⟩
  rcases Option.eq_none_or_eq_some (env.Update d.Id (updateOptsOf d)) with hu | ⟨err, hu⟩
  · by_cases ht : d.HasChange "tags" = true <;> by_cases hs : d.HasChange "size" = true
    all_goals
      rcases Option.eq_none_or_eq_some (env.extendSize d) with he | ⟨err2, he⟩
    all_goals
      simp only [hu, ht, hs, he, if_true, if_false]
      refine ⟨by simp, ?_, ?_, ?_, ?_⟩
      · simp [List.any_append, tailT, rt, Event.isTagCreate]
      · simp [List.any_append, tailE, re, Event.isExtendSize]
      · simp [List.any_append, tailW, rw_, Event.isWaitForState]
      · first
        | exact fun _ => ex [.update d.Id (updateOptsOf d),
            .tagCreate "volumes" d.Id (env.resourceContainerTags d)] _
        | exact fun _ => ex [.update d.Id (updateOptsOf d)] _
        | (intro h; simp [List.any_append, tailW, rw_, Event.isWaitForState] at h)
  · simp [hu, Event.isTagCreate, Event.isExtendSize, Event.isWaitForState]

/-- C4 amended, at an Update in which `size` changed. -/
theorem update_calls_by_change_witness :
    (resourceEvsVolumeV3Update sampleEnv
      (sampleData "vol-1" [("size", .int 40)] ["size"])).trace.any Event.isWaitForState = true :=
  (update_calls_by_change sampleEnv (sampleData "vol-1" [("size", .int 40)] ["size"]) rfl).2.2.2.1.2
    ⟨by decide, rfl, rfl⟩

/-- C3, at the failing input: `tags` changed and the tag API call returns an
error, yet Update returns nil, both when `size` is unchanged and when `size`
changed too; the tag call was issued in both runs. -/
theorem update_drops_tag_error :
    (sampleData "vol-1" [("tags", .strMap [("env", "prod")])] ["tags"]).HasChange "tags" = true ∧
    ({ sampleEnv with resourceEVSTagV2Create := fun _ _ _ _ => some (.other "HTTP 500") } : Env
      ).resourceEVSTagV2Create
        (sampleData "vol-1" [("tags", .strMap [("env", "prod")])] ["tags"]) "volumes" "vol-1"
        [("env", "prod")] = some (.other "HTTP 500") ∧
    (resourceEvsVolumeV3Update
      { sampleEnv with resourceEVSTagV2Create := fun _ _ _ _ => some (.other "HTTP 500") }
      (sampleData "vol-1" [("tags", .strMap [("env", "prod")])] ["tags"])).trace.any
        Event.isTagCreate = true ∧
    (resourceEvsVolumeV3Update
      { sampleEnv with resourceEVSTagV2Create := fun _ _ _ _ => some (.other "HTTP 500") }
      (sampleData "vol-1" [("tags", .strMap [("env", "prod")])] ["tags"])).err = none ∧
    (resourceEvsVolumeV3Update
      { sampleEnv with resourceEVSTagV2Create := fun _ _ _ _ => some (.other "HTTP 500") }
      (sampleData "vol-1" [("tags", .strMap [("env", "prod")])] ["tags", "size"])).trace.any
        Event.isTagCreate = true ∧
    (resourceEvsVolumeV3Update
      { sampleEnv with resourceEVSTagV2Create := fun _ _ _ _ => some (.other "HTTP 500") }
      (sampleData "vol-1" [("tags", .strMap [("env", "prod")])] ["tags", "size"])).err = none := by
  refine ⟨by decide, rfl, by decide, by decide, by decide, by decide⟩

/-- The metadata of the create request for every configuration: the two
encryption entries exactly when `kms_id` is set, "hw:passthrough" exactly when
`device_type` is the string "SCSI", and no Metadata when neither holds. -/
theorem createOpts_metadata (env : Env) (d : ResourceData) :
    (createOptsOf env d).Metadata =
      if d.GetString "kms_id" ≠ "" then
        if d.GetString "device_type" = "SCSI" then
          some [("__system__cmkid", d.GetString "kms_id"), ("__system__encrypted", "1"),
                ("hw:passthrough", "true")]
        else some [("__system__cmkid", d.GetString "kms_id"), ("__system__encrypted", "1")]
      else if d.GetString "device_type" = "SCSI" then some [("hw:passthrough", "true")]
      else none := by
  have l3 : (["__system__cmkid", "__system__encrypted", "hw:passthrough"].dedup).length = 3 := by
    decide
  have l2 : (["__system__cmkid", "__system__encrypted"].dedup).length = 2 := by decide
  by_cases hk : d.GetString "kms_id" = ""
  · have hb : (d.GetString "kms_id" != "") = false := by simp [hk]
    by_cases hs : d.GetString "device_type" = "SCSI" <;>
      simp [createOptsOf, createMetadata, ResourceData.GetOkString, hk, hs, StrMap.put,
        StrMap.len]
  · have hb : (d.GetString "kms_id" != "") = true := by simp [hk]
    by_cases hs : d.GetString "device_type" = "SCSI"
    · simp only [createOptsOf, createMetadata, ResourceData.GetOkString, hb, hs, StrMap.put,
        StrMap.len]
      simp [l3, hk]
    · simp only [createOptsOf, createMetadata, ResourceData.GetOkString, hb, hs, StrMap.put,
        StrMap.len]
      simp [l2, hk]

/-- C9, at the failing input: the schema validator accepts the device type
"scsi", which equals "SCSI" ignoring case, yet the create request built for it
leaves Metadata unset, so it carries no "hw:passthrough"; with "SCSI" the
request carries "hw:passthrough" = "true". -/
theorem create_lowercase_scsi_no_passthrough :
    deviceTypeValidateFunc "scsi" = true ∧
    (createOptsOf sampleEnv
      (sampleData "" [("size", .int 10), ("device_type", .str "scsi")] [])).Metadata = none ∧
    (resourceEvsVolumeV3Create sampleEnv
      (sampleData "" [("size", .int 10), ("device_type", .str "scsi")] [])).trace.head?
      = some (.create
          { BackupID := "", AvailabilityZone := "", Description := "", Size := 10, Name := "",
            SnapshotID := "", ImageRef := "", VolumeType := "", Multiattach := false, Tags := [],
            Metadata := none }) ∧
    (createOptsOf sampleEnv
      (sampleData "" [("size", .int 10), ("device_type", .str "SCSI")] [])).Metadata
      = some [("hw:passthrough", "true")] := by
  refine ⟨by decide, by decide, by decide, by decide⟩

end Evs
